import Mathlib

/-!
Shallow embedding of the `ipm` CLI (Inkdrop Plugin Manager).

The embedded code:
* `src/auth` (credential store adapter): `getAccessToken`, `saveAccessToken`,
  `isAuthenticated`;
* `src/input.ts`: `prompt` (trims the raw line of input);
* `src/index.ts`: `configure`, `ensureAuthenticated` and the per-command
  handlers of `main` (`list`, `outdated`, `install`, `update`, `uninstall`,
  `search`, `info`).

External collaborators (OS keyring, the `open` URI launcher, the external
package-manager client) are modelled by explicit parameters: the keyring
read behaviour is a `ReadResult`, the external client call result is an
`Except String α`, terminal input is a raw string that `prompt` trims.
`process.exit(1)` is modelled by an `exitCode : Option Nat` field in each
result record: once it is `some`, no further statement of the source runs.
-/

namespace IPMCLI

/-- Log levels of the CLI logger (`logger.info` / `logger.warn` / `logger.error`). -/
inductive LogLevel where
  | info
  | warn
  | error
deriving Repr, DecidableEq

/-- One logger call: its level, its message string, and (for the two-argument
`logger.error(msg, error)` calls) the underlying error value. -/
structure LogEntry where
  level : LogLevel
  message : String
  err : Option String := none
deriving Repr, DecidableEq

/-- Shorthand for `logger.info(msg)`. -/
def mkInfo (msg : String) : LogEntry := { level := .info, message := msg }

/-- Shorthand for `logger.warn(msg)`. -/
def mkWarn (msg : String) : LogEntry := { level := .warn, message := msg }

/-- Shorthand for `logger.error(msg)` / `logger.error(msg, error)`. -/
def mkError (msg : String) (e : Option String) : LogEntry :=
  { level := .error, message := msg, err := e }

/-- The `AccessKey` record of `src/auth`.  In the source the destructuring
`const [accessKeyId, secretAccessKey] = token.split(':')` can leave
`secretAccessKey` as the JavaScript value `undefined` (when the token has no
colon), so the field is modelled as `Option String`, `none` standing for
`undefined`. -/
structure AccessKey where
  accessKeyId : String
  secretAccessKey : Option String
deriving Repr, DecidableEq

/-- Behaviour of one `entry.getPassword()` call on the OS keyring:
it returns a string, returns a null-ish value, or throws. -/
inductive ReadResult where
  | value (s : String)
  | noValue
  | failure
deriving Repr, DecidableEq

/-- JavaScript `String.prototype.split` with a single-character separator,
on a list of characters: `"".split(c)` is `[""]`, and every occurrence of
the separator starts a new field. -/
def splitChars (c : Char) : List Char → List (List Char)
  | [] => [[]]
  | x :: xs =>
    match splitChars c xs with
    | [] => [[]]
    | y :: ys => if x = c then [] :: y :: ys else (x :: y) :: ys

/-- JavaScript `s.split(c)` for a one-character separator `c`. -/
def jsSplit (c : Char) (s : String) : List String :=
  (splitChars c s.data).map String.mk

/-- The destructuring `const [accessKeyId, secretAccessKey] = token.split(':')`
of `getAccessToken`: field 0 and field 1 of the split, a missing field 1
being JavaScript `undefined` (modelled `none`); any further fields of the
split are dropped. -/
def parseAccessToken (token : String) : AccessKey :=
  match jsSplit ':' token with
  | [] => { accessKeyId := "", secretAccessKey := none }
  | [a] => { accessKeyId := a, secretAccessKey := none }
  | a :: b :: _ => { accessKeyId := a, secretAccessKey := some b }

/-- `getAccessToken` of `src/auth`: read the keyring; a thrown error is
swallowed to `null` (`none`); a falsy token (null-ish or the empty string)
gives `null`; otherwise the token is split on `':'` and destructured. -/
def getAccessToken (store : ReadResult) : Option AccessKey :=
  match store with
  | .value token => if token = "" then none else some (parseAccessToken token)
  | .noValue => none
  | .failure => none

/-- `saveAccessToken` of `src/auth` writes the raw token string through
`entry.setPassword(token)`; this gives the keyring state a subsequent
successful read observes. -/
def saveAccessToken (token : String) : ReadResult := .value token

/-- `isAuthenticated` of `src/auth`: `getAccessToken() !== null`. -/
def isAuthenticated (store : ReadResult) : Bool :=
  (getAccessToken store).isSome

/-- JavaScript `String.prototype.trim`: strip leading and trailing
whitespace. -/
def jsTrim (s : String) : String :=
  String.mk (((s.data.dropWhile Char.isWhitespace).reverse.dropWhile
    Char.isWhitespace).reverse)

/-- JavaScript `String.prototype.toLowerCase` (on the ASCII range used by
the reconfigure answers). -/
def jsToLower (s : String) : String := String.mk (s.data.map Char.toLower)

/-- `prompt` of `src/input.ts`: resolve with the trimmed line of raw input. -/
def prompt (rawInput : String) : String := jsTrim rawInput

/-- The first field of a string split at `':'`: the longest prefix free of
`':'`. -/
def firstField (s : String) : String := String.mk (s.data.takeWhile (· != ':'))

/-- The environment one run of `configure` interacts with: the keyring read
behaviour, the raw terminal lines the user types at the two prompts, and the
behaviour of the external collaborators (`open`, `entry.setPassword`).
`saveErr` is the error value thrown by a failing `setPassword`. -/
structure ConfigureEnv where
  store : ReadResult
  rawReconfigureAnswer : String
  rawTokenInput : String
  openFails : Bool
  saveFails : Bool
  saveErr : String
deriving Repr, DecidableEq

/-- Observable outcome of one run of `configure`: the keyring state after
the run, the exit code when `process.exit` was reached, whether the run
ended in an uncaught exception (from `openAccessKeyPage`, whose failure the
source does not handle), whether `saveAccessToken` was called, and the
logger output in order. -/
structure ConfigureResult where
  finalStore : ReadResult
  exitCode : Option Nat
  threw : Bool
  saveCalled : Bool
  logs : List LogEntry
deriving Repr, DecidableEq

/-- The part of `configure` (src/index.ts) after the already-authenticated
check: open the desktop app (an unhandled failure propagates), prompt for
the token, exit 1 on an empty trimmed token, try to save, exit 1 on a save
failure, else confirm. -/
def configureTokenEntry (env : ConfigureEnv) (logs : List LogEntry) :
    ConfigureResult :=
  let logs := logs ++
    [mkInfo "Opening Inkdrop desktop app to display your access key..."]
  if env.openFails then
    { finalStore := env.store, exitCode := none, threw := true,
      saveCalled := false, logs := logs }
  else
    let token := prompt env.rawTokenInput
    if token = "" then
      { finalStore := env.store, exitCode := some 1, threw := false,
        saveCalled := false,
        logs := logs ++ [mkError "Error: Access token cannot be empty." none] }
    else if env.saveFails then
      { finalStore := env.store, exitCode := some 1, threw := false,
        saveCalled := true,
        logs := logs ++ [mkError "Error saving access token:" (some env.saveErr)] }
    else
      { finalStore := saveAccessToken token, exitCode := none, threw := false,
        saveCalled := true,
        logs := logs ++ [mkInfo "\n✓ Access token saved successfully!",
          mkInfo "You can now use the Inkdrop CLI."] }

/-- `configure` of src/index.ts: if a credential already exists, ask whether
to reconfigure and return on any answer whose lowercased form is neither
"y" nor "yes"; otherwise continue with the token entry part. -/
def configure (env : ConfigureEnv) : ConfigureResult :=
  let logs := [mkInfo "Configuring Inkdrop CLI...\n"]
  match getAccessToken env.store with
  | some _ =>
    let logs := logs ++ [mkInfo "✓ You are already authenticated."]
    let answer := prompt env.rawReconfigureAnswer
    if jsToLower answer != "y" && jsToLower answer != "yes" then
      { finalStore := env.store, exitCode := none, threw := false,
        saveCalled := false,
        logs := logs ++ [mkInfo "Configuration cancelled."] }
    else
      configureTokenEntry env logs
  | none => configureTokenEntry env logs

/-- Observable outcome of `ensureAuthenticated`: final keyring state, exit
code / uncaught exception inherited from an inner `configure` run, whether
`configure` ran, the returned credential (meaningful only when the function
actually returns, i.e. `exitCode = none` and `threw = false`), and the logs. -/
structure EnsureResult where
  finalStore : ReadResult
  exitCode : Option Nat
  threw : Bool
  configureRan : Bool
  returned : Option AccessKey
  logs : List LogEntry
deriving Repr, DecidableEq

/-- `ensureAuthenticated` of src/index.ts: read the credential; when it is
absent run `configure`; finally re-read the store and return the result of
that second read. -/
def ensureAuthenticated (env : ConfigureEnv) : EnsureResult :=
  match getAccessToken env.store with
  | some _ =>
    { finalStore := env.store, exitCode := none, threw := false,
      configureRan := false, returned := getAccessToken env.store, logs := [] }
  | none =>
    let r := configure env
    let logs := mkInfo "You are not authenticated yet." :: r.logs
    if r.exitCode.isSome || r.threw then
      { finalStore := r.finalStore, exitCode := r.exitCode, threw := r.threw,
        configureRan := true, returned := none, logs := logs }
    else
      { finalStore := r.finalStore, exitCode := none, threw := false,
        configureRan := true, returned := getAccessToken r.finalStore,
        logs := logs }

/-- Truthiness of an optional JavaScript string: `undefined` and `""` are
falsy, every other string truthy. -/
def strTruthy (v : Option String) : Bool :=
  match v with
  | some s => !(s == "")
  | none => false

/-- The `versionStr` expression of the `install`/`update` handlers:
`options.version ? "@" + options.version : ""`. -/
def versionStr (v : Option String) : String :=
  match v with
  | some s => if s = "" then "" else "@" ++ s
  | none => ""

/-- Package summary row returned by `ipm.getInstalled()` (name, version,
optional description), as consumed by the `list` handler. -/
structure PackageSummary where
  name : String
  version : String
  description : Option String
deriving Repr, DecidableEq

/-- Row returned by `ipm.getOutdated()` as consumed by the `outdated`
handler. -/
structure OutdatedEntry where
  name : String
  version : String
  latestVersion : String
deriving Repr, DecidableEq

/-- Registry search row as consumed by the `search` handler: name,
`releases.latest`, `metadata.description`, `downloads`. -/
structure SearchResult where
  name : String
  latest : String
  description : Option String
  downloads : Nat
deriving Repr, DecidableEq

/-- Registry package info as consumed by the `info` handler. -/
structure PackageInfo where
  name : String
  latest : String
  description : Option String
  repository : Option String
  license : Option String
  downloads : Nat
  keywords : Option (List String)
  enginesInkdrop : Option String
deriving Repr, DecidableEq

/-- Observable outcome of one command handler's try-block: the logger
output in order and the exit code when `process.exit` was reached. -/
structure CmdResult where
  logs : List LogEntry
  exitCode : Option Nat
deriving Repr, DecidableEq

/-- One line of the `list` output:
`"  name@version"` plus `" - description"` when the description is truthy. -/
def formatInstalled (pkg : PackageSummary) : String :=
  "  " ++ pkg.name ++ "@" ++ pkg.version ++
    (if strTruthy pkg.description then " - " ++ pkg.description.getD "" else "")

/-- The `list` handler's try-block, over the result of `ipm.getInstalled()`. -/
def listCmd (res : Except String (List PackageSummary)) : CmdResult :=
  let logs := [mkInfo "Fetching installed packages..."]
  match res with
  | .error e =>
    { logs := logs ++ [mkError "Failed to fetch installed packages:" (some e)],
      exitCode := some 1 }
  | .ok packages =>
    if packages.length = 0 then
      { logs := logs ++ [mkInfo "No packages installed."], exitCode := none }
    else
      { logs := logs ++
          [mkInfo ("\nInstalled packages (" ++ toString packages.length ++ "):\n")] ++
          packages.map (fun pkg => mkInfo (formatInstalled pkg)),
        exitCode := none }

/-- One line of the `outdated` output. -/
def formatOutdated (pkg : OutdatedEntry) : String :=
  "  " ++ pkg.name ++ ": " ++ pkg.version ++ " → " ++ pkg.latestVersion

/-- The `outdated` handler's try-block, over the result of
`ipm.getOutdated()`. -/
def outdatedCmd (res : Except String (List OutdatedEntry)) : CmdResult :=
  let logs := [mkInfo "Checking for outdated packages..."]
  match res with
  | .error e =>
    { logs := logs ++ [mkError "Failed to check outdated packages:" (some e)],
      exitCode := some 1 }
  | .ok outdated =>
    if outdated.length = 0 then
      { logs := logs ++ [mkInfo "All packages are up to date."], exitCode := none }
    else
      { logs := logs ++
          [mkInfo ("\nOutdated packages (" ++ toString outdated.length ++ "):\n")] ++
          outdated.map (fun pkg => mkInfo (formatOutdated pkg)),
        exitCode := none }

/-- The `install` handler's try-block, over the result of `ipm.install`. -/
def installCmd (packageName : String) (version : Option String)
    (res : Except String Unit) : CmdResult :=
  let logs := [mkInfo ("Installing " ++ packageName ++ versionStr version ++ "...")]
  match res with
  | .error e =>
    { logs := logs ++ [mkError ("Failed to install " ++ packageName ++ ":") (some e)],
      exitCode := some 1 }
  | .ok _ =>
    { logs := logs ++
        [mkInfo ("✓ Successfully installed " ++ packageName ++ versionStr version)],
      exitCode := none }

/-- The `update` handler's try-block, over the result of `ipm.update`. -/
def updateCmd (packageName : String) (version : Option String)
    (res : Except String Unit) : CmdResult :=
  let logs := [mkInfo ("Updating " ++ packageName ++ versionStr version ++ "...")]
  match res with
  | .error e =>
    { logs := logs ++ [mkError ("Failed to update " ++ packageName ++ ":") (some e)],
      exitCode := some 1 }
  | .ok _ =>
    { logs := logs ++
        [mkInfo ("✓ Successfully updated " ++ packageName ++ versionStr version)],
      exitCode := none }

/-- The `uninstall` handler's try-block, over the (truthy/falsy) result of
`ipm.uninstall`. -/
def uninstallCmd (packageName : String) (res : Except String Bool) : CmdResult :=
  let logs := [mkInfo ("Uninstalling " ++ packageName ++ "...")]
  match res with
  | .error e =>
    { logs := logs ++ [mkError ("Failed to uninstall " ++ packageName ++ ":") (some e)],
      exitCode := some 1 }
  | .ok result =>
    if result then
      { logs := logs ++ [mkInfo ("✓ Successfully uninstalled " ++ packageName)],
        exitCode := none }
    else
      { logs := logs ++ [mkWarn ("Package " ++ packageName ++ " was not installed")],
        exitCode := none }

/-- The lines printed for one search result: the name/version line, the
description line when truthy, the downloads line, and a blank line. -/
def formatSearchResult (pkg : SearchResult) : List LogEntry :=
  [mkInfo ("  " ++ pkg.name ++ " (v" ++ pkg.latest ++ ")")] ++
  (if strTruthy pkg.description then [mkInfo ("    " ++ pkg.description.getD "")] else []) ++
  [mkInfo ("    Downloads: " ++ toString pkg.downloads), mkInfo ""]

/-- The `search` handler's try-block, over the result of
`ipm.registry.search`. -/
def searchCmd (query : String) (res : Except String (List SearchResult)) :
    CmdResult :=
  let logs := [mkInfo ("Searching for \x22" ++ query ++ "\x22...")]
  match res with
  | .error e =>
    { logs := logs ++ [mkError "Search failed:" (some e)], exitCode := some 1 }
  | .ok results =>
    if results.length = 0 then
      { logs := logs ++ [mkInfo "No packages found."], exitCode := none }
    else
      { logs := logs ++
          [mkInfo ("\nFound " ++ toString results.length ++ " package(s):\n")] ++
          results.flatMap formatSearchResult,
        exitCode := none }

/-- The detail lines printed by the `info` handler on success. -/
def formatPackageInfo (info : PackageInfo) : List LogEntry :=
  [mkInfo ("\nPackage: " ++ info.name),
    mkInfo ("Latest version: " ++ info.latest)] ++
  (if strTruthy info.description
    then [mkInfo ("Description: " ++ info.description.getD "")] else []) ++
  (if strTruthy info.repository
    then [mkInfo ("Repository: " ++ info.repository.getD "")] else []) ++
  (if strTruthy info.license
    then [mkInfo ("License: " ++ info.license.getD "")] else []) ++
  [mkInfo ("Downloads: " ++ toString info.downloads)] ++
  (match info.keywords with
    | some ks =>
      if ks.length > 0
        then [mkInfo ("Keywords: " ++ String.intercalate ", " ks)] else []
    | none => []) ++
  (if strTruthy info.enginesInkdrop
    then [mkInfo ("Inkdrop version: " ++ info.enginesInkdrop.getD "")] else [])

/-- The `info` handler's try-block, over the result of
`ipm.registry.getPackageInfo`. -/
def infoCmd (packageName : String) (res : Except String PackageInfo) :
    CmdResult :=
  let logs := [mkInfo ("Fetching information for " ++ packageName ++ "...")]
  match res with
  | .error e =>
    { logs := logs ++ [mkError "Failed to fetch package info:" (some e)],
      exitCode := some 1 }
  | .ok info =>
    { logs := logs ++ formatPackageInfo info, exitCode := none }

/-- Concrete environment: no stored credential, whitespace-only pasted
token. -/
def envEmptyToken : ConfigureEnv :=
  { store := ReadResult.noValue, rawReconfigureAnswer := "",
    rawTokenInput := "   ", openFails := false, saveFails := false,
    saveErr := "" }

/-- Concrete environment: credential `x:y` stored, reconfigure answer `n`. -/
def envDecline : ConfigureEnv :=
  { store := ReadResult.value "x:y", rawReconfigureAnswer := "n",
    rawTokenInput := "tok", openFails := false, saveFails := false,
    saveErr := "" }

/-- Concrete environment: credential `x:y` stored. -/
def envAuthed : ConfigureEnv :=
  { store := ReadResult.value "x:y", rawReconfigureAnswer := "",
    rawTokenInput := "", openFails := false, saveFails := false,
    saveErr := "" }

/-- Concrete environment: no stored credential, token `tok` pasted, the
keyring write throws `boom`. -/
def envSaveFail : ConfigureEnv :=
  { store := ReadResult.noValue, rawReconfigureAnswer := "",
    rawTokenInput := "tok", openFails := false, saveFails := true,
    saveErr := "boom" }

theorem splitChars_ne_nil (c : Char) (l : List Char) : splitChars c l ≠ [] := by
  cases l with
  | nil => simp [splitChars]
  | cons x xs =>
    simp only [splitChars]
    cases splitChars c xs with
    | nil => simp
    | cons y ys =>
      by_cases hx : x = c <;> simp [hx]

theorem splitChars_of_not_mem {c : Char} {l : List Char} (h : c ∉ l) :
    splitChars c l = [l] := by
  induction l with
  | nil => rfl
  | cons x xs ih =>
    have hx : x ≠ c := fun e => h (e ▸ List.mem_cons_self x xs)
    have hxs : c ∉ xs := fun m => h (List.mem_cons_of_mem _ m)
    simp [splitChars, ih hxs, hx]

theorem splitChars_append {c : Char} {l₁ : List Char} (l₂ : List Char)
    (h : c ∉ l₁) : splitChars c (l₁ ++ c :: l₂) = l₁ :: splitChars c l₂ := by
  induction l₁ with
  | nil =>
    simp only [List.nil_append, splitChars]
    cases hs : splitChars c l₂ with
    | nil => exact absurd hs (splitChars_ne_nil c l₂)
    | cons y ys => simp
  | cons x xs ih =>
    have hx : x ≠ c := fun e => h (e ▸ List.mem_cons_self x xs)
    have hxs : c ∉ xs := fun m => h (List.mem_cons_of_mem _ m)
    simp only [List.cons_append, splitChars, List.append_eq]
    rw [ih hxs]
    simp [hx]

theorem splitChars_headD (c : Char) (l : List Char) :
    (splitChars c l).headD [] = l.takeWhile (· != c) := by
  induction l with
  | nil => rfl
  | cons x xs ih =>
    simp only [splitChars]
    cases hs : splitChars c xs with
    | nil => exact absurd hs (splitChars_ne_nil c xs)
    | cons y ys =>
      rw [hs] at ih
      by_cases hx : x = c
      · subst hx
        simp [List.takeWhile]
      · simp only [List.headD] at ih
        have hbne : (x != c) = true := by simp [hx]
        simp [List.takeWhile, ih, hbne, hx]

theorem string_append_colon_data (a b : String) :
    (a ++ ":" ++ b).data = a.data ++ ':' :: b.data := by
  simp [String.data_append]

theorem string_append_colon_ne_empty (a b : String) : a ++ ":" ++ b ≠ "" := by
  intro h
  have h2 := congrArg String.data h
  rw [string_append_colon_data] at h2
  simp at h2

theorem parseAccessToken_sep (a b : String) (h : ':' ∉ a.data) :
    parseAccessToken (a ++ ":" ++ b) =
      { accessKeyId := a, secretAccessKey := some (firstField b) } := by
  unfold parseAccessToken jsSplit
  rw [string_append_colon_data, splitChars_append _ h]
  cases hs : splitChars ':' b.data with
  | nil => exact absurd hs (splitChars_ne_nil ':' b.data)
  | cons y ys =>
    have hy : y = b.data.takeWhile (· != ':') := by
      have hh := splitChars_headD ':' b.data
      rw [hs] at hh
      exact hh
    simp only [List.map]
    rw [hy]
    rfl

theorem takeWhile_ne_of_not_mem {c : Char} {l : List Char} (h : c ∉ l) :
    l.takeWhile (· != c) = l := by
  induction l with
  | nil => rfl
  | cons x xs ih =>
    have hx : x ≠ c := fun e => h (e ▸ List.mem_cons_self x xs)
    have hbne : (x != c) = true := by simp [hx]
    simp [List.takeWhile, hbne, ih (fun m => h (List.mem_cons_of_mem _ m))]

theorem firstField_of_not_mem {s : String} (h : ':' ∉ s.data) :
    firstField s = s := by
  unfold firstField
  rw [takeWhile_ne_of_not_mem h]

/-- C1. Credential round-trip: for every token of the form `id:secret`
where neither `id` nor `secret` contains a colon, saving it via
`saveAccessToken` and then reading via `getAccessToken` yields the pair
`{accessKeyId := id, secretAccessKey := secret}`. -/
theorem credential_roundtrip (id secret : String)
    (h1 : ':' ∉ id.data) (h2 : ':' ∉ secret.data) :
    getAccessToken (saveAccessToken (id ++ ":" ++ secret)) =
      some { accessKeyId := id, secretAccessKey := some secret } := by
  have hne := string_append_colon_ne_empty id secret
  simp only [saveAccessToken, getAccessToken, if_neg hne]
  rw [parseAccessToken_sep id secret h1, firstField_of_not_mem h2]

/-- Witness for C1 at the concrete token `AKIA:abc123`. -/
theorem credential_roundtrip_witness :
    ':' ∉ ("AKIA" : String).data ∧ ':' ∉ ("abc123" : String).data ∧
    getAccessToken (saveAccessToken ("AKIA" ++ ":" ++ "abc123")) =
      some { accessKeyId := "AKIA", secretAccessKey := some "abc123" } :=
  ⟨by decide, by decide,
    credential_roundtrip "AKIA" "abc123" (by decide) (by decide)⟩

/-- C2. Credential read is fail-open: when no credential is stored (the
stored value is absent or the empty string) or the keyring read throws,
`getAccessToken` returns `none`; no error propagates (the embedding is a
total function into `Option`). -/
theorem credential_read_fail_open (store : ReadResult)
    (h : store = ReadResult.noValue ∨ store = ReadResult.value "" ∨
      store = ReadResult.failure) :
    getAccessToken store = none := by
  rcases h with h | h | h <;> subst h <;> simp [getAccessToken]

/-- Witness for C2 at a throwing keyring read. -/
theorem credential_read_fail_open_witness :
    getAccessToken ReadResult.failure = none :=
  credential_read_fail_open ReadResult.failure (Or.inr (Or.inr rfl))

/-- Counterexample to C3 as stated: for the stored string `a:b:c`, the
secret access key is `"b"`, not the entire remainder `"b:c"` after the
first colon — JavaScript `split(':')` splits at every colon and the
destructuring keeps only the first two fields. -/
theorem first_colon_split_counterexample :
    getAccessToken (ReadResult.value "a:b:c") =
        some { accessKeyId := "a", secretAccessKey := some "b" } ∧
      getAccessToken (ReadResult.value "a:b:c") ≠
        some { accessKeyId := "a", secretAccessKey := some "b:c" } := by
  constructor
  · decide
  · decide

/-- C3 (amended). For every stored string with at least one colon, written
`a ++ ":" ++ b` with `a` colon-free, `getAccessToken` returns
`accessKeyId = a` (the part before the first colon) and
`secretAccessKey` equal to the part of `b` before the next colon
(`firstField b`): anything after a second colon is dropped. -/
theorem first_colon_split_amended (a b : String) (h : ':' ∉ a.data) :
    getAccessToken (ReadResult.value (a ++ ":" ++ b)) =
      some { accessKeyId := a, secretAccessKey := some (firstField b) } := by
  have hne := string_append_colon_ne_empty a b
  simp only [getAccessToken, if_neg hne]
  rw [parseAccessToken_sep a b h]

/-- Witness for the amended C3 at the stored string `a:b:c`. -/
theorem first_colon_split_amended_witness :
    getAccessToken (ReadResult.value "a:b:c") =
      some { accessKeyId := "a", secretAccessKey := some "b" } := by
  have h := first_colon_split_amended "a" "b:c" (by decide)
  have e : ("a" ++ ":" ++ "b:c" : String) = "a:b:c" := by decide
  rw [e] at h
  rw [h]
  decide

/-- C10. Colon-less token edge case: a stored non-empty token with no colon
parses to a present credential whose `accessKeyId` is the whole token and
whose `secretAccessKey` is JavaScript `undefined` (`none`), and
`isAuthenticated` is `true` for it. -/
theorem colonless_token_counts_as_authenticated (s : String)
    (h0 : s ≠ "") (h : ':' ∉ s.data) :
    getAccessToken (ReadResult.value s) =
        some { accessKeyId := s, secretAccessKey := none } ∧
      isAuthenticated (ReadResult.value s) = true := by
  have hp : parseAccessToken s = { accessKeyId := s, secretAccessKey := none } := by
    unfold parseAccessToken jsSplit
    rw [splitChars_of_not_mem h]
    rfl
  constructor
  · simp only [getAccessToken, if_neg h0, hp]
  · simp [isAuthenticated, getAccessToken, if_neg h0]

/-- Witness for C10 at the token `abc`. -/
theorem colonless_token_counts_as_authenticated_witness :
    getAccessToken (ReadResult.value "abc") =
        some { accessKeyId := "abc", secretAccessKey := none } ∧
      isAuthenticated (ReadResult.value "abc") = true :=
  colonless_token_counts_as_authenticated "abc" (by decide) (by decide)

/-- C4. Empty-token abort: whenever the configure flow reaches the paste
prompt (no credential stored, or the reconfigure answer was affirmative)
and the trimmed pasted token is empty, `configure` exits with code 1,
never calls `saveAccessToken`, and leaves the store unchanged. -/
theorem empty_token_abort (env : ConfigureEnv)
    (hreach : getAccessToken env.store = none ∨
      jsToLower (prompt env.rawReconfigureAnswer) = "y" ∨
      jsToLower (prompt env.rawReconfigureAnswer) = "yes")
    (hopen : env.openFails = false)
    (hempty : prompt env.rawTokenInput = "") :
    (configure env).exitCode = some 1 ∧
      (configure env).saveCalled = false ∧
      (configure env).finalStore = env.store := by
  cases hg : getAccessToken env.store with
  | none => simp [configure, configureTokenEntry, hg, hopen, hempty]
  | some k =>
    rcases hreach with h | h | h
    · rw [hg] at h
      simp at h
    · simp [configure, configureTokenEntry, hg, h, hopen, hempty]
    · simp [configure, configureTokenEntry, hg, h, hopen, hempty]

/-- Witness for C4: no stored credential, whitespace-only pasted token. -/
theorem empty_token_abort_witness :
    (configure envEmptyToken).exitCode = some 1 ∧
      (configure envEmptyToken).saveCalled = false ∧
      (configure envEmptyToken).finalStore = ReadResult.noValue :=
  empty_token_abort envEmptyToken (Or.inl (by decide)) rfl (by decide)

/-- C5. Reconfigure abort leaves state unchanged: when a credential exists
and the lowercased trimmed reconfigure answer is neither "y" nor "yes",
`configure` returns without writing: the store is unchanged, the save is
never called, and no exit is triggered. -/
theorem reconfigure_abort (env : ConfigureEnv) (k : AccessKey)
    (hk : getAccessToken env.store = some k)
    (h1 : jsToLower (prompt env.rawReconfigureAnswer) ≠ "y")
    (h2 : jsToLower (prompt env.rawReconfigureAnswer) ≠ "yes") :
    (configure env).finalStore = env.store ∧
      (configure env).saveCalled = false ∧
      (configure env).exitCode = none := by
  simp [configure, hk, h1, h2]

/-- Witness for C5: existing credential `x:y`, answer `n`. -/
theorem reconfigure_abort_witness :
    (configure envDecline).finalStore = ReadResult.value "x:y" ∧
      (configure envDecline).saveCalled = false ∧
      (configure envDecline).exitCode = none :=
  reconfigure_abort envDecline
    { accessKeyId := "x", secretAccessKey := some "y" }
    (by decide) (by decide) (by decide)

/-- C6. `ensureAuthenticated` guard: when a credential exists it is
returned without running `configure`; when none exists `configure` runs
first and, whenever `configure` returns normally, `ensureAuthenticated`
itself returns normally (no exit, no exception) with the result of
re-reading the store — even when that re-read is still absent. -/
theorem ensure_authenticated_guard (env : ConfigureEnv) :
    (∀ k, getAccessToken env.store = some k →
      (ensureAuthenticated env).configureRan = false ∧
      (ensureAuthenticated env).returned = some k ∧
      (ensureAuthenticated env).exitCode = none ∧
      (ensureAuthenticated env).threw = false) ∧
    (getAccessToken env.store = none →
      (ensureAuthenticated env).configureRan = true ∧
      ((configure env).exitCode = none → (configure env).threw = false →
        (ensureAuthenticated env).exitCode = none ∧
        (ensureAuthenticated env).threw = false ∧
        (ensureAuthenticated env).returned =
          getAccessToken (configure env).finalStore)) := by
  constructor
  · intro k hk
    simp [ensureAuthenticated, hk]
  · intro hnone
    constructor
    · by_cases hc : ((configure env).exitCode.isSome || (configure env).threw) = true
      · simp [ensureAuthenticated, hnone, hc]
      · simp only [Bool.not_eq_true] at hc
        simp [ensureAuthenticated, hnone, hc]
    · intro he ht
      have hc : ((configure env).exitCode.isSome || (configure env).threw) = false := by
        rw [he, ht]
        rfl
      simp [ensureAuthenticated, hnone, hc]

/-- Witness for C6: an existing credential `x:y` is returned directly. -/
theorem ensure_authenticated_guard_witness :
    (ensureAuthenticated envAuthed).configureRan = false ∧
      (ensureAuthenticated envAuthed).returned =
        some { accessKeyId := "x", secretAccessKey := some "y" } ∧
      (ensureAuthenticated envAuthed).exitCode = none ∧
      (ensureAuthenticated envAuthed).threw = false :=
  (ensure_authenticated_guard envAuthed).1
    { accessKeyId := "x", secretAccessKey := some "y" } (by decide)

/-- C7. Per-command error path: for every data command, an error `e` from
the external client call yields exit code 1 and an error log naming the
failed operation with the underlying error attached; a keyring write
failure in `configure` likewise logs the error and exits 1. -/
theorem command_error_paths (e pkg query : String) (ver : Option String)
    (env : ConfigureEnv) (hno : getAccessToken env.store = none)
    (hopen : env.openFails = false)
    (htok : prompt env.rawTokenInput ≠ "") (hsave : env.saveFails = true) :
    ((listCmd (Except.error e)).exitCode = some 1 ∧
      mkError "Failed to fetch installed packages:" (some e) ∈
        (listCmd (Except.error e)).logs) ∧
    ((outdatedCmd (Except.error e)).exitCode = some 1 ∧
      mkError "Failed to check outdated packages:" (some e) ∈
        (outdatedCmd (Except.error e)).logs) ∧
    ((installCmd pkg ver (Except.error e)).exitCode = some 1 ∧
      mkError ("Failed to install " ++ pkg ++ ":") (some e) ∈
        (installCmd pkg ver (Except.error e)).logs) ∧
    ((updateCmd pkg ver (Except.error e)).exitCode = some 1 ∧
      mkError ("Failed to update " ++ pkg ++ ":") (some e) ∈
        (updateCmd pkg ver (Except.error e)).logs) ∧
    ((uninstallCmd pkg (Except.error e)).exitCode = some 1 ∧
      mkError ("Failed to uninstall " ++ pkg ++ ":") (some e) ∈
        (uninstallCmd pkg (Except.error e)).logs) ∧
    ((searchCmd query (Except.error e)).exitCode = some 1 ∧
      mkError "Search failed:" (some e) ∈
        (searchCmd query (Except.error e)).logs) ∧
    ((infoCmd pkg (Except.error e)).exitCode = some 1 ∧
      mkError "Failed to fetch package info:" (some e) ∈
        (infoCmd pkg (Except.error e)).logs) ∧
    ((configure env).exitCode = some 1 ∧
      mkError "Error saving access token:" (some env.saveErr) ∈
        (configure env).logs) := by
  refine ⟨⟨rfl, ?_⟩, ⟨rfl, ?_⟩, ⟨rfl, ?_⟩, ⟨rfl, ?_⟩, ⟨rfl, ?_⟩, ⟨rfl, ?_⟩,
    ⟨rfl, ?_⟩, ?_, ?_⟩
  · simp [listCmd]
  · simp [outdatedCmd]
  · simp [installCmd]
  · simp [updateCmd]
  · simp [uninstallCmd]
  · simp [searchCmd]
  · simp [infoCmd]
  · simp [configure, configureTokenEntry, hno, hopen, htok, hsave]
  · simp [configure, configureTokenEntry, hno, hopen, htok, hsave]

/-- Witness for C7 at `e = boom`, `pkg = foo`, `query = q`, a save-failure
environment. -/
theorem command_error_paths_witness :
    ((listCmd (Except.error "boom")).exitCode = some 1 ∧
      mkError "Failed to fetch installed packages:" (some "boom") ∈
        (listCmd (Except.error "boom")).logs) ∧
    ((configure envSaveFail).exitCode = some 1 ∧
      mkError "Error saving access token:" (some "boom") ∈
        (configure envSaveFail).logs) := by
  have h := command_error_paths "boom" "foo" "q" none envSaveFail
    rfl rfl (by decide) rfl
  exact ⟨h.1, h.2.2.2.2.2.2.2⟩

/-- C8. Uninstall distinguishes nothing-to-do from error: a completed
uninstall reporting the package was not installed (falsy result) logs a
distinct warning without exiting non-zero; a truthy result logs a success
message (and the not-installed warning does not appear then). -/
theorem uninstall_not_installed (pkg : String) :
    (uninstallCmd pkg (Except.ok false)).exitCode = none ∧
      mkWarn ("Package " ++ pkg ++ " was not installed") ∈
        (uninstallCmd pkg (Except.ok false)).logs ∧
      (uninstallCmd pkg (Except.ok true)).exitCode = none ∧
      mkInfo ("✓ Successfully uninstalled " ++ pkg) ∈
        (uninstallCmd pkg (Except.ok true)).logs ∧
      mkWarn ("Package " ++ pkg ++ " was not installed") ∉
        (uninstallCmd pkg (Except.ok true)).logs := by
  refine ⟨rfl, ?_, rfl, ?_, ?_⟩
  · simp [uninstallCmd]
  · simp [uninstallCmd]
  · simp [uninstallCmd, mkWarn, mkInfo]

theorem append_head (s t : String) (c : Char) (h : s.data.head? = some c) :
    (s ++ t).data.head? = some c := by
  rw [String.data_append]
  cases hs : s.data with
  | nil =>
    rw [hs] at h
    simp at h
  | cons x xs =>
    rw [hs] at h
    simp at h
    simp [h]

theorem string_ne_of_head {m₁ m₂ : String} {c₁ c₂ : Char}
    (h₁ : m₁.data.head? = some c₁) (h₂ : m₂.data.head? = some c₂)
    (hc : c₁ ≠ c₂) : m₁ ≠ m₂ := by
  intro h
  rw [h, h₂] at h₁
  exact hc (Option.some.inj h₁.symm)

theorem mkInfo_ne_of_head {m₁ m₂ : String} {c₁ c₂ : Char}
    (h₁ : m₁.data.head? = some c₁) (h₂ : m₂.data.head? = some c₂)
    (hc : c₁ ≠ c₂) : mkInfo m₁ ≠ mkInfo m₂ := by
  intro h
  exact string_ne_of_head h₁ h₂ hc (congrArg LogEntry.message h)

theorem formatInstalled_head (p : PackageSummary) :
    (formatInstalled p).data.head? = some ' ' := by
  unfold formatInstalled
  apply append_head
  apply append_head
  apply append_head
  apply append_head
  decide

theorem formatOutdated_head (p : OutdatedEntry) :
    (formatOutdated p).data.head? = some ' ' := by
  unfold formatOutdated
  apply append_head
  apply append_head
  apply append_head
  apply append_head
  apply append_head
  decide

theorem searchLine_head (p : SearchResult) :
    ("  " ++ p.name ++ " (v" ++ p.latest ++ ")").data.head? = some ' ' := by
  apply append_head
  apply append_head
  apply append_head
  apply append_head
  decide

theorem listHeader_head (n : String) :
    ("\nInstalled packages (" ++ n ++ "):\n").data.head? = some '\n' := by
  apply append_head
  apply append_head
  decide

theorem outdatedHeader_head (n : String) :
    ("\nOutdated packages (" ++ n ++ "):\n").data.head? = some '\n' := by
  apply append_head
  apply append_head
  decide

theorem searchHeader_head (n : String) :
    ("\nFound " ++ n ++ " package(s):\n").data.head? = some '\n' := by
  apply append_head
  apply append_head
  decide

theorem descLine_head (p : SearchResult) :
    ("    " ++ p.description.getD "").data.head? = some ' ' := by
  apply append_head
  decide

theorem downloadsLine_head (p : SearchResult) :
    ("    Downloads: " ++ toString p.downloads).data.head? = some ' ' := by
  apply append_head
  decide

theorem not_mem_formatSearchResult (p : SearchResult) :
    mkInfo "No packages found." ∉ formatSearchResult p := by
  have hN : ("No packages found." : String).data.head? = some 'N' := by decide
  intro hin
  unfold formatSearchResult at hin
  rcases List.mem_append.mp hin with hin | hin
  · rcases List.mem_append.mp hin with hin | hin
    · exact mkInfo_ne_of_head hN (searchLine_head p) (by decide)
        (List.mem_singleton.mp hin)
    · by_cases hd : strTruthy p.description
      · rw [if_pos hd] at hin
        exact mkInfo_ne_of_head hN (descLine_head p) (by decide)
          (List.mem_singleton.mp hin)
      · rw [if_neg hd] at hin
        simp at hin
  · rcases List.mem_cons.mp hin with h | hin
    · exact mkInfo_ne_of_head hN (downloadsLine_head p) (by decide) h
    · have h := List.mem_singleton.mp hin
      exact (by decide : mkInfo "No packages found." ≠ mkInfo "") h

/-- C9. Empty-result messages: `list`, `outdated` and `search` print a
distinct empty-state message on an empty successful result, and print the
populated listing (header plus one line per element), without the
empty-state message, exactly when the result is non-empty. -/
theorem empty_result_messages (pkgs : List PackageSummary)
    (outs : List OutdatedEntry) (results : List SearchResult) (query : String)
    (h1 : pkgs ≠ []) (h2 : outs ≠ []) (h3 : results ≠ []) :
    ((listCmd (Except.ok ([] : List PackageSummary))).logs =
        [mkInfo "Fetching installed packages...",
          mkInfo "No packages installed."] ∧
      (listCmd (Except.ok ([] : List PackageSummary))).exitCode = none) ∧
    ((outdatedCmd (Except.ok ([] : List OutdatedEntry))).logs =
        [mkInfo "Checking for outdated packages...",
          mkInfo "All packages are up to date."] ∧
      (outdatedCmd (Except.ok ([] : List OutdatedEntry))).exitCode = none) ∧
    ((searchCmd query (Except.ok ([] : List SearchResult))).logs =
        [mkInfo ("Searching for \x22" ++ query ++ "\x22..."),
          mkInfo "No packages found."] ∧
      (searchCmd query (Except.ok ([] : List SearchResult))).exitCode = none) ∧
    (mkInfo "No packages installed." ∉ (listCmd (Except.ok pkgs)).logs ∧
      mkInfo ("\nInstalled packages (" ++ toString pkgs.length ++ "):\n") ∈
        (listCmd (Except.ok pkgs)).logs ∧
      ∀ p ∈ pkgs,
        mkInfo (formatInstalled p) ∈ (listCmd (Except.ok pkgs)).logs) ∧
    (mkInfo "All packages are up to date." ∉
        (outdatedCmd (Except.ok outs)).logs ∧
      mkInfo ("\nOutdated packages (" ++ toString outs.length ++ "):\n") ∈
        (outdatedCmd (Except.ok outs)).logs ∧
      ∀ p ∈ outs,
        mkInfo (formatOutdated p) ∈ (outdatedCmd (Except.ok outs)).logs) ∧
    (mkInfo "No packages found." ∉ (searchCmd query (Except.ok results)).logs ∧
      mkInfo ("\nFound " ++ toString results.length ++ " package(s):\n") ∈
        (searchCmd query (Except.ok results)).logs ∧
      ∀ p ∈ results,
        mkInfo ("  " ++ p.name ++ " (v" ++ p.latest ++ ")") ∈
          (searchCmd query (Except.ok results)).logs) := by
  have hN1 : ("No packages installed." : String).data.head? = some 'N' := by
    decide
  have hA : ("All packages are up to date." : String).data.head? = some 'A' := by
    decide
  have hN2 : ("No packages found." : String).data.head? = some 'N' := by decide
  have hlen1 : ¬ pkgs.length = 0 := by simp [List.length_eq_zero, h1]
  have hlen2 : ¬ outs.length = 0 := by simp [List.length_eq_zero, h2]
  have hlen3 : ¬ results.length = 0 := by simp [List.length_eq_zero, h3]
  have hlogs1 : (listCmd (Except.ok pkgs)).logs =
      mkInfo "Fetching installed packages..." ::
      mkInfo ("\nInstalled packages (" ++ toString pkgs.length ++ "):\n") ::
      pkgs.map (fun p => mkInfo (formatInstalled p)) := by
    simp [listCmd, hlen1]
  have hlogs2 : (outdatedCmd (Except.ok outs)).logs =
      mkInfo "Checking for outdated packages..." ::
      mkInfo ("\nOutdated packages (" ++ toString outs.length ++ "):\n") ::
      outs.map (fun p => mkInfo (formatOutdated p)) := by
    simp [outdatedCmd, hlen2]
  have hlogs3 : (searchCmd query (Except.ok results)).logs =
      mkInfo ("Searching for \x22" ++ query ++ "\x22...") ::
      mkInfo ("\nFound " ++ toString results.length ++ " package(s):\n") ::
      results.flatMap formatSearchResult := by
    simp [searchCmd, hlen3]
  refine ⟨⟨?_, rfl⟩, ⟨?_, rfl⟩, ⟨?_, rfl⟩, ⟨?_, ?_, ?_⟩, ⟨?_, ?_, ?_⟩,
    ⟨?_, ?_, ?_⟩⟩
  · simp [listCmd]
  · simp [outdatedCmd]
  · simp [searchCmd]
  · rw [hlogs1]
    intro hin
    rcases List.mem_cons.mp hin with h | hin
    · exact (by decide : mkInfo "No packages installed." ≠
        mkInfo "Fetching installed packages...") h
    rcases List.mem_cons.mp hin with h | hin
    · exact mkInfo_ne_of_head hN1 (listHeader_head _) (by decide) h
    rcases List.mem_map.mp hin with ⟨p, hp, h⟩
    exact mkInfo_ne_of_head hN1 (formatInstalled_head p) (by decide) h.symm
  · rw [hlogs1]
    exact List.mem_cons_of_mem _ (List.mem_cons_self _ _)
  · intro p hp
    rw [hlogs1]
    exact List.mem_cons_of_mem _ (List.mem_cons_of_mem _
      (List.mem_map_of_mem _ hp))
  · rw [hlogs2]
    intro hin
    rcases List.mem_cons.mp hin with h | hin
    · exact (by decide : mkInfo "All packages are up to date." ≠
        mkInfo "Checking for outdated packages...") h
    rcases List.mem_cons.mp hin with h | hin
    · exact mkInfo_ne_of_head hA (outdatedHeader_head _) (by decide) h
    rcases List.mem_map.mp hin with ⟨p, hp, h⟩
    exact mkInfo_ne_of_head hA (formatOutdated_head p) (by decide) h.symm
  · rw [hlogs2]
    exact List.mem_cons_of_mem _ (List.mem_cons_self _ _)
  · intro p hp
    rw [hlogs2]
    exact List.mem_cons_of_mem _ (List.mem_cons_of_mem _
      (List.mem_map_of_mem _ hp))
  · rw [hlogs3]
    intro hin
    rcases List.mem_cons.mp hin with h | hin
    · exact mkInfo_ne_of_head hN2
        (append_head _ _ 'S' (append_head _ _ 'S' (by decide))) (by decide) h
    rcases List.mem_cons.mp hin with h | hin
    · exact mkInfo_ne_of_head hN2 (searchHeader_head _) (by decide) h
    rcases List.mem_flatMap.mp hin with ⟨p, hp, h⟩
    exact not_mem_formatSearchResult p h
  · rw [hlogs3]
    exact List.mem_cons_of_mem _ (List.mem_cons_self _ _)
  · intro p hp
    rw [hlogs3]
    refine List.mem_cons_of_mem _ (List.mem_cons_of_mem _
      (List.mem_flatMap.mpr ⟨p, hp, ?_⟩))
    unfold formatSearchResult
    exact List.mem_append_left _ (List.mem_append_left _
      (List.mem_singleton.mpr rfl))

/-- Witness for C9 with one-element result lists. -/
theorem empty_result_messages_witness :
    (mkInfo "No packages installed." ∉
        (listCmd (Except.ok
          [{ name := "pkgA", version := "1.0.0", description := none }])).logs) ∧
      ((searchCmd "q" (Except.ok ([] : List SearchResult))).logs =
        [mkInfo ("Searching for \x22" ++ "q" ++ "\x22..."),
          mkInfo "No packages found."]) := by
  have h := empty_result_messages
    [{ name := "pkgA", version := "1.0.0", description := none }]
    [{ name := "pkgA", version := "1.0.0", latestVersion := "2.0.0" }]
    [{ name := "pkgA", latest := "1.0.0", description := none, downloads := 5 }]
    "q" (by decide) (by decide) (by decide)
  exact ⟨h.2.2.2.1.1, h.2.2.1.1⟩

end IPMCLI
